import Mathlib

/-!
# MedMatch: medication resolution and analogue matching, verified

Shallow embedding of the MedMatch repository's analogue-search engine.
Two pipelines are modelled faithfully from the TypeScript source:

* the local-catalog pipeline (`LocalMedicationService` over the
  `POPULAR_OTC_MEDICATIONS` table, and the `MedicationService` variant that
  drives it), and
* the remote OpenFDA pipeline (`DrugAPIService`, `EMADrugAPIService`,
  `CanadianDrugAPIService` and the `MedicationService` variant that drives
  them), with every network response supplied by an explicit environment so
  that the asynchronous code becomes a pure function of its inputs.

JavaScript string primitives (`toLowerCase`, `trim`, `includes`,
`replace(/\s+/g,'-')`, truthiness of strings) are embedded as executable
character-list functions restricted to ASCII, which covers every string the
program manipulates.
-/

namespace Medmatch

/-- ASCII lower-casing of one character, as JS `toLowerCase` acts on the
ASCII range used throughout the catalog. -/
def lowerChar (c : Char) : Char :=
  if 'A' ≤ c ∧ c ≤ 'Z' then Char.ofNat (c.toNat + 32) else c

/-- ASCII upper-casing of one character, as JS `toUpperCase` acts on ASCII. -/
def upperChar (c : Char) : Char :=
  if 'a' ≤ c ∧ c ≤ 'z' then Char.ofNat (c.toNat - 32) else c

/-- JS `s.toLowerCase()`. -/
def jsLower (s : String) : String := ⟨s.data.map lowerChar⟩

/-- JS `s.toUpperCase()`. -/
def jsUpper (s : String) : String := ⟨s.data.map upperChar⟩

/-- The whitespace characters matched by the JS regex `\s` (ASCII part). -/
def wsChar (c : Char) : Bool :=
  c = ' ' ∨ c = '\t' ∨ c = '\n' ∨ c = '\r' ∨ c = '\x0b' ∨ c = '\x0c'

/-- JS `s.trim()`. -/
def jsTrim (s : String) : String :=
  ⟨((s.data.dropWhile wsChar).reverse.dropWhile wsChar).reverse⟩

/-- Does `needle` occur as a contiguous run inside `hay`?  Helper for JS
`String.prototype.includes`. -/
def hasRun (needle : List Char) : List Char → Bool
  | [] => needle.isEmpty
  | c :: t => needle.isPrefixOf (c :: t) || hasRun needle t

/-- JS `s.includes(sub)`. -/
def jsIncludes (s sub : String) : Bool := hasRun sub.data s.data

/-- JS `s.replace(/\s+/g, '-')`: every maximal whitespace run becomes one
hyphen.  The Boolean argument records whether the previous character was
whitespace. -/
def collapseWsAux : Bool → List Char → List Char
  | _, [] => []
  | prevWs, c :: t =>
    if wsChar c then
      if prevWs then collapseWsAux true t else '-' :: collapseWsAux true t
    else c :: collapseWsAux false t

/-- JS `s.replace(/\s+/g, '-')`. -/
def collapseWs (s : String) : String := ⟨collapseWsAux false s.data⟩

/-- JS string truthiness: only the empty string is falsy. -/
def jsTruthy (s : String) : Bool := s ≠ ""

/-- JS `a || b` on an optional string (`undefined` and `''` are falsy). -/
def jsOrD (a : Option String) (b : String) : String :=
  match a with
  | some s => if s = "" then b else s
  | none => b

/-- JS `s === o` where `o : string | undefined` (comparison with
`undefined` is `false`). -/
def jsEqOpt (s : String) (o : Option String) : Bool :=
  match o with
  | some t => s == t
  | none => false

/-- The `availability` enum of the data model: `'otc' | 'prescription' |
'unavailable'`. -/
inductive Avail
  | otc
  | prescription
  | unavailable
deriving DecidableEq, Repr

/-- One entry of the `active_ingredients` array of an OpenFDA label. -/
structure ActiveIngredientEntry where
  name : String
  strength : String
deriving DecidableEq, Repr

/-- The `openfda` sub-object of an OpenFDA drug label
(src/services/api.ts, interface `OpenFDADrug`). -/
structure OpenFDAInfo where
  brand_name : List String
  generic_name : List String
  manufacturer_name : List String
  substance_name : List String
  dosage_form : List String
  route : List String
deriving DecidableEq, Repr

/-- An OpenFDA drug label (src/services/api.ts, interface `OpenFDADrug`).
Optional arrays absent from a response are modelled as `[]`. -/
structure OpenFDADrug where
  openfda : OpenFDAInfo
  active_ingredient : List String
  active_ingredients : List ActiveIngredientEntry
  drug_interactions : List String
  warnings : List String
  description : List String
deriving DecidableEq, Repr

/-- The `Medication` interface shared by all `medicationService` variants.
`lastUpdated` (a wall-clock `Date` that no logic ever reads) is modelled as
an inert string. -/
structure Medication where
  id : String
  name : String
  activeIngredient : String
  dosageForm : String
  strength : String
  country : String
  brandName : Option String
  genericName : Option String
  manufacturer : String
  availability : Avail
  lastUpdated : String
  warnings : Option (List String)
  interactions : Option (List String)
  description : Option String
deriving DecidableEq, Repr

/-- The `SearchResult` interface (the variant with the optional
`noAnaloguesFound` / `fallbackMessage` fields; the variants without them
simply never set them). -/
structure SearchResult where
  originalMedication : Medication
  analogues : List Medication
  confidence : ℚ
  warnings : List String
  apiSource : String
  noAnaloguesFound : Option Bool
  fallbackMessage : Option String
deriving DecidableEq, Repr

/-- The six disclaimer strings every result carries. -/
def standardWarnings : List String :=
  [ "This information is for educational purposes only"
  , "Always consult with a healthcare provider before taking any medication"
  , "Dosage and availability may vary by country"
  , "Only over-the-counter medications are included"
  , "Drug interactions and contraindications may differ"
  , "Regulations and approval status vary by country" ]

/-- `MedicationService.convertOpenFDADrugToMedication` as it appears in the
OpenFDA pipeline (`sourceCountry` is hard-coded to `'US'` and availability
to `'otc'`; the `country` parameter is accepted but unused). -/
def convertOpenFDADrugToMedication (drug : OpenFDADrug) (_country : String) :
    Medication :=
  let brandName := jsOrD drug.openfda.brand_name.head? ""
  let genericName := jsOrD drug.openfda.generic_name.head? ""
  let activeIngredient :=
    jsOrD drug.active_ingredient.head?
      (jsOrD (drug.active_ingredients.head?.map ActiveIngredientEntry.name) "")
  let strength := jsOrD (drug.active_ingredients.head?.map ActiveIngredientEntry.strength) ""
  let dosageForm := jsOrD drug.openfda.dosage_form.head? ""
  let manufacturer := jsOrD drug.openfda.manufacturer_name.head? ""
  let sourceCountry := "US"
  { id := collapseWs (jsLower (sourceCountry ++ "-" ++ brandName ++ "-" ++ genericName))
  , name := if brandName = "" then genericName else brandName
  , activeIngredient := activeIngredient
  , dosageForm := dosageForm
  , strength := strength
  , country := sourceCountry
  , brandName := if brandName = "" then none else some brandName
  , genericName := if genericName = "" then none else some genericName
  , manufacturer := manufacturer
  , availability := Avail.otc
  , lastUpdated := "now"
  , warnings := some drug.warnings
  , interactions := some drug.drug_interactions
  , description := some (jsOrD drug.description.head? "") }

/-- JS truthiness of `o : string | undefined` (`undefined` and `''` falsy). -/
def optTruthy (o : Option String) : Bool :=
  match o with
  | some s => s ≠ ""
  | none => false

/-- JS `a || b` where both sides are `string | undefined` and the result may
itself be `undefined`. -/
def jsOrOpt (a b : Option String) : Option String :=
  match a with
  | some s => if s = "" then b else some s
  | none => b

/-- `DrugAPIService.generateSearchVariations` (src/services/api.ts): the
ordered list of OpenFDA search strings tried for one query. -/
def generateSearchVariations (query : String) : List String :=
  let cleanQuery := jsTrim query
  if cleanQuery.length < 3 then []
  else
    let lowerQuery := jsLower cleanQuery
    let vIbu :=
      if jsIncludes lowerQuery "ibuprofen" || jsIncludes lowerQuery "ibu" then
        ["openfda.generic_name:IBUPROFEN"]
      else []
    let vAce :=
      if jsIncludes lowerQuery "acetaminophen" || jsIncludes lowerQuery "tylenol" ||
          jsIncludes lowerQuery "ace" || jsIncludes lowerQuery "tyl" then
        ["openfda.generic_name:ACETAMINOPHEN"]
      else []
    let vAsp :=
      if jsIncludes lowerQuery "aspirin" || jsIncludes lowerQuery "asp" then
        ["openfda.generic_name:ASPIRIN"]
      else []
    let exact :=
      [ "openfda.generic_name:" ++ jsUpper cleanQuery
      , "openfda.brand_name:" ++ cleanQuery
      , "openfda.substance_name:" ++ jsUpper cleanQuery ]
    let byLen :=
      if cleanQuery.length ≥ 4 then
        (List.range' 4 (cleanQuery.length - 3)).flatMap fun len =>
          let p : String := ⟨cleanQuery.data.take len⟩
          [ "openfda.generic_name:" ++ p
          , "openfda.brand_name:" ++ p
          , "openfda.substance_name:" ++ p ]
      else []
    vIbu ++ vAce ++ vAsp ++ exact ++ byLen

/-- The remote catalog endpoints other than the OpenFDA label search. -/
inductive RegionEndpoint
  | emaDirect
  | whoEU
  | healthCanada
  | whoCA
deriving DecidableEq, Repr

/-- One record of the untyped JSON payload the EU / Canadian region services
receive; every field may be absent (`convertToEMADrugs` /
`convertToCanadianDrugs` read them with `||` defaults). -/
structure RegionRaw where
  name : Option String
  brandName : Option String
  genericName : Option String
  dosageForm : Option String
  strength : Option String
  manufacturer : Option String
  availability : Option Avail
  warnings : Option (List String)
  interactions : Option (List String)
  description : Option String
deriving DecidableEq, Repr

/-- The network environment: each remote call's outcome, indexed by the
request it would issue.  `label` is the OpenFDA `drug/label.json` endpoint
keyed by its `search` parameter string and limit; `region` covers the
EMA / WHO / Health-Canada endpoints keyed by endpoint, ingredient and
limit.  `Except.error` is a failed or malformed response (the code's thrown
exception); the response body is reduced to its `results` array, the only
part any caller reads. -/
structure ApiEnv where
  label : String → Nat → Except Unit (List OpenFDADrug)
  region : RegionEndpoint → String → Nat → Except Unit (List RegionRaw)

/-- The variation loop inside `DrugAPIService.searchDrugs`: try each search
string in order; a thrown error or an empty result list means "continue",
the first non-empty result list is returned, and exhaustion yields the
empty result set. -/
def tryVariations (env : ApiEnv) (limit : Nat) : List String → List OpenFDADrug
  | [] => []
  | v :: vs =>
    match env.label v limit with
    | Except.error _ => tryVariations env limit vs
    | Except.ok results =>
      if results.length > 0 then results else tryVariations env limit vs

/-- `DrugAPIService.searchDrugs` (src/services/api.ts): never throws; all
per-variation failures are swallowed by the loop. -/
def searchDrugs (env : ApiEnv) (query : String) (limit : Nat) : List OpenFDADrug :=
  tryVariations env limit (generateSearchVariations query)

/-- The `search` parameter built by `DrugAPIService.searchByActiveIngredient`. -/
def ingredientSearchString (ingredient : String) : String :=
  "active_ingredient:" ++ ingredient ++ "+OR+openfda.substance_name:" ++ ingredient ++
    "+OR+openfda.generic_name:" ++ ingredient

/-- `DrugAPIService.searchByActiveIngredient` (src/services/api.ts): a bare
`makeRequest` with no catch, so a failed request propagates as an error. -/
def searchByActiveIngredient (env : ApiEnv) (ingredient : String) (limit : Nat) :
    Except Unit (List OpenFDADrug) :=
  env.label (ingredientSearchString ingredient) limit

/-- `MedicationService.findBestMatch`: exact generic/brand match first, then
substring match, then the first result. -/
def findBestMatch (results : List OpenFDADrug) (query : String) : Option OpenFDADrug :=
  let cleanQuery := jsTrim (jsLower query)
  let gname := fun (d : OpenFDADrug) => jsOrD (d.openfda.generic_name.head?.map jsLower) ""
  let bname := fun (d : OpenFDADrug) => jsOrD (d.openfda.brand_name.head?.map jsLower) ""
  match results.find? (fun d => gname d == cleanQuery || bname d == cleanQuery) with
  | some d => some d
  | none =>
    match results.find? (fun d => jsIncludes (gname d) cleanQuery ||
        jsIncludes (bname d) cleanQuery) with
    | some d => some d
    | none => results.head?

/-- `EMADrugAPIService.convertToEMADrugs`: maps the raw region payload to
`Medication`s; note that `availability` is passed through from the remote
record and only defaults to `'otc'` when the field is absent. -/
def convertToEMADrugs (results : List RegionRaw) (activeIngredient : String) :
    List Medication :=
  results.map fun drug =>
    { id := "eu-" ++
        (match drug.name with
          | some n => collapseWs (jsLower n)
          | none => "undefined") ++ "-" ++ jsLower activeIngredient
    , name := jsOrD drug.name (jsOrD drug.brandName "Unknown")
    , activeIngredient := jsUpper activeIngredient
    , dosageForm := jsOrD drug.dosageForm "Tablet"
    , strength := jsOrD drug.strength "Unknown"
    , country := "EU"
    , brandName := jsOrOpt drug.brandName drug.name
    , genericName := some (jsOrD drug.genericName (jsUpper activeIngredient))
    , manufacturer := jsOrD drug.manufacturer "Unknown"
    , availability := drug.availability.getD Avail.otc
    , lastUpdated := "now"
    , warnings := some (drug.warnings.getD ["Consult healthcare provider"])
    , interactions := some (drug.interactions.getD [])
    , description := some (jsOrD drug.description "EU medication") }

/-- `CanadianDrugAPIService.convertToCanadianDrugs`: same shape as the EU
conversion with country `'Canada'` and the `ca-` id prefix. -/
def convertToCanadianDrugs (results : List RegionRaw) (activeIngredient : String) :
    List Medication :=
  results.map fun drug =>
    { id := "ca-" ++
        (match drug.name with
          | some n => collapseWs (jsLower n)
          | none => "undefined") ++ "-" ++ jsLower activeIngredient
    , name := jsOrD drug.name (jsOrD drug.brandName "Unknown")
    , activeIngredient := jsUpper activeIngredient
    , dosageForm := jsOrD drug.dosageForm "Tablet"
    , strength := jsOrD drug.strength "Unknown"
    , country := "Canada"
    , brandName := jsOrOpt drug.brandName drug.name
    , genericName := some (jsOrD drug.genericName (jsUpper activeIngredient))
    , manufacturer := jsOrD drug.manufacturer "Unknown"
    , availability := drug.availability.getD Avail.otc
    , lastUpdated := "now"
    , warnings := some (drug.warnings.getD ["Consult healthcare provider"])
    , interactions := some (drug.interactions.getD [])
    , description := some (jsOrD drug.description "Canadian medication") }

/-- `EMADrugAPIService.searchEUMedications`: two region endpoints tried in
order, errors and empty payloads skipped, exhaustion yields `[]`; the
function itself never throws. -/
def searchEUMedications (env : ApiEnv) (activeIngredient : String) (limit : Nat) :
    List Medication :=
  let tryWho :=
    match env.region RegionEndpoint.whoEU activeIngredient limit with
    | Except.ok rs =>
      if rs.length > 0 then convertToEMADrugs rs activeIngredient else []
    | Except.error _ => []
  match env.region RegionEndpoint.emaDirect activeIngredient limit with
  | Except.ok rs =>
    if rs.length > 0 then convertToEMADrugs rs activeIngredient else tryWho
  | Except.error _ => tryWho

/-- `CanadianDrugAPIService.searchCanadianMedications`: mirror of the EU
service over the Health-Canada and WHO endpoints. -/
def searchCanadianMedications (env : ApiEnv) (activeIngredient : String) (limit : Nat) :
    List Medication :=
  let tryWho :=
    match env.region RegionEndpoint.whoCA activeIngredient limit with
    | Except.ok rs =>
      if rs.length > 0 then convertToCanadianDrugs rs activeIngredient else []
    | Except.error _ => []
  match env.region RegionEndpoint.healthCanada activeIngredient limit with
  | Except.ok rs =>
    if rs.length > 0 then convertToCanadianDrugs rs activeIngredient else tryWho
  | Except.error _ => tryWho

/-- Labels for the four analogue-matching strategies of
`MedicationService.searchMedications`, in their source order. -/
inductive Strat
  | ingredient
  | genericName
  | substanceName
  | broad
deriving DecidableEq, Repr

/-- The four-strategy analogue search of `MedicationService.searchMedications`
(the EMA/Canada variant), instrumented with the list of strategies actually
attempted.  Strategy 1 is the uncaught `searchByActiveIngredient`; strategies
2–4 reassign `analogueResults` only while the running result is still empty. -/
def analoguePhase (env : ApiEnv) (orig : Medication) :
    List Strat × Except Unit (List OpenFDADrug) :=
  match searchByActiveIngredient env orig.activeIngredient 15 with
  | Except.error e => ([Strat.ingredient], Except.error e)
  | Except.ok r1 =>
    let g2 := r1.length == 0 && optTruthy orig.genericName
    let r2 := if g2 then searchDrugs env (orig.genericName.getD "") 15 else r1
    let g3 := r2.length == 0
    let r3 := if g3 then searchDrugs env orig.activeIngredient 15 else r2
    let g4 := r3.length == 0
    let r4 :=
      if g4 then searchDrugs env (jsOrD orig.genericName orig.activeIngredient) 20 else r3
    (Strat.ingredient ::
        ((if g2 then [Strat.genericName] else []) ++
          (if g3 then [Strat.substanceName] else []) ++
          (if g4 then [Strat.broad] else [])),
      Except.ok r4)

/-- The drop-condition of the analogue filter: same `(brandName, genericName)`
pair as the original (strict JS `===`, so comparison with an absent field is
always false). -/
def sameAsOriginal (orig : Medication) (drug : OpenFDADrug) : Bool :=
  jsEqOpt (jsOrD drug.openfda.brand_name.head? "") orig.brandName &&
    jsEqOpt (jsOrD drug.openfda.generic_name.head? "") orig.genericName

/-- The fallback message of the EMA/Canada pipeline when no analogues remain. -/
def noAnaloguesMsg (orig : Medication) (destinationCountry : String) : String :=
  "No analogues found for " ++ orig.name ++ " (" ++ orig.activeIngredient ++ ") in " ++
    destinationCountry ++
    ". This could be due to:\n\n• Different regulatory approval status\n• Different brand names or formulations\n• Limited data availability\n• Regional restrictions\n\nPlease consult a healthcare provider or pharmacist for medication alternatives."

/-- The fixed message of the empty-ingredient short circuit. -/
def ambiguousIngredientMsg : String :=
  "Unable to identify active ingredient for analogue search. Please consult a healthcare provider for medication alternatives."

/-- Assembly of the final `SearchResult` of the EMA/Canada pipeline:
confidence 0.8 when analogues exist, 0.3 otherwise, and the fallback fields
set exactly when the analogue list is empty. -/
def finalizeResult (orig : Medication) (destinationCountry : String)
    (analogues : List Medication) : SearchResult :=
  { originalMedication := orig
  , analogues := analogues
  , confidence := if analogues.length > 0 then (0.8 : ℚ) else 0.3
  , warnings := standardWarnings
  , apiSource := "OpenFDA API"
  , noAnaloguesFound := if analogues.length = 0 then some true else none
  , fallbackMessage :=
      if analogues.length = 0 then some (noAnaloguesMsg orig destinationCountry)
      else none }

/-- The analogue list assembled by `searchMedications` after a successful
strategy phase: raw OpenFDA candidates minus the same-product filter,
converted, with the EU / Canada region augmentation appended when the
destination matches. -/
def assembleAnalogues (env : ApiEnv) (orig : Medication) (destinationCountry : String)
    (rawResults : List OpenFDADrug) : List Medication :=
  let filtered :=
    (rawResults.filter fun d => !sameAsOriginal orig d).map
      fun d => convertOpenFDADrugToMedication d destinationCountry
  let withEU :=
    if destinationCountry = "EU" then
      filtered ++ searchEUMedications env orig.activeIngredient 10
    else filtered
  if destinationCountry = "Canada" then
    withEU ++ searchCanadianMedications env orig.activeIngredient 10
  else withEU

/-- The early result returned when the resolved medication has no usable
active ingredient. -/
def ambiguousResult (orig : Medication) : SearchResult :=
  { originalMedication := orig
  , analogues := []
  , confidence := 0.2
  , warnings := standardWarnings
  , apiSource := "OpenFDA API"
  , noAnaloguesFound := some true
  , fallbackMessage := some ambiguousIngredientMsg }

/-- `MedicationService.searchMedications` (the EMA/Canada variant,
src/unnamed/part_004), instrumented with the analogue-strategy trace.  The
top-level `try/catch` that converts any escaped error into `null` appears as
the `Except.error → none` branch. -/
def searchMedicationsT (env : ApiEnv) (query sourceCountry destinationCountry : String) :
    List Strat × Option SearchResult :=
  let sourceResults := searchDrugs env query 10
  if sourceResults.length = 0 then ([], none)
  else
    match findBestMatch sourceResults query with
    | none => ([], none)
    | some bestMatch =>
      let originalMedication := convertOpenFDADrugToMedication bestMatch sourceCountry
      if !jsTruthy originalMedication.activeIngredient ||
          !jsTruthy (jsTrim originalMedication.activeIngredient) then
        ([], some (ambiguousResult originalMedication))
      else
        match analoguePhase env originalMedication with
        | (tr, Except.error _) => (tr, none)
        | (tr, Except.ok rawResults) =>
          (tr, some (finalizeResult originalMedication destinationCountry
            (assembleAnalogues env originalMedication destinationCountry rawResults)))

/-- The EMA/Canada pipeline's observable result (trace discarded). -/
def searchMedications (env : ApiEnv) (query sourceCountry destinationCountry : String) :
    Option SearchResult :=
  (searchMedicationsT env query sourceCountry destinationCountry).2

/-- The `LocalDrug` interface of the local medication database
(src/unnamed/part_001): a `Medication` plus the `analogues` list of related
record ids. -/
structure LocalDrug where
  id : String
  name : String
  activeIngredient : String
  dosageForm : String
  strength : String
  country : String
  brandName : Option String
  genericName : Option String
  manufacturer : String
  availability : Avail
  lastUpdated : String
  warnings : Option (List String)
  interactions : Option (List String)
  description : Option String
  analogues : Option (List String)
deriving DecidableEq, Repr

/-- The `POPULAR_OTC_MEDICATIONS` table, transcribed record by record. -/
def POPULAR_OTC_MEDICATIONS : List LocalDrug :=
  [ { id := "us-ibuprofen", name := "Ibuprofen", activeIngredient := "IBUPROFEN"
    , dosageForm := "Tablet", strength := "200mg", country := "US"
    , brandName := some "Advil", genericName := some "Ibuprofen"
    , manufacturer := "Various", availability := Avail.otc, lastUpdated := "2024-01-01"
    , warnings := some ["Take with food", "Do not exceed 1200mg per day"]
    , interactions := some ["Blood thinners", "Other NSAIDs"]
    , description := some "Anti-inflammatory pain reliever and fever reducer"
    , analogues := some ["eu-ibuprofen", "ca-ibuprofen", "us-acetaminophen", "eu-paracetamol", "ca-acetaminophen"] }
  , { id := "eu-ibuprofen", name := "Ibuprofen", activeIngredient := "IBUPROFEN"
    , dosageForm := "Tablet", strength := "400mg", country := "EU"
    , brandName := some "Nurofen", genericName := some "Ibuprofen"
    , manufacturer := "Various", availability := Avail.otc, lastUpdated := "2024-01-01"
    , warnings := some ["Take with food", "Do not exceed 1200mg per day"]
    , interactions := some ["Blood thinners", "Other NSAIDs"]
    , description := some "Anti-inflammatory pain reliever and fever reducer"
    , analogues := some ["us-ibuprofen", "ca-ibuprofen", "eu-paracetamol", "us-acetaminophen", "ca-acetaminophen"] }
  , { id := "ca-ibuprofen", name := "Ibuprofen", activeIngredient := "IBUPROFEN"
    , dosageForm := "Tablet", strength := "200mg", country := "CA"
    , brandName := some "Advil", genericName := some "Ibuprofen"
    , manufacturer := "Various", availability := Avail.otc, lastUpdated := "2024-01-01"
    , warnings := some ["Take with food", "Do not exceed 1200mg per day"]
    , interactions := some ["Blood thinners", "Other NSAIDs"]
    , description := some "Anti-inflammatory pain reliever and fever reducer"
    , analogues := some ["us-ibuprofen", "eu-ibuprofen", "ca-acetaminophen", "us-acetaminophen", "eu-paracetamol"] }
  , { id := "us-acetaminophen", name := "Acetaminophen", activeIngredient := "ACETAMINOPHEN"
    , dosageForm := "Tablet", strength := "500mg", country := "US"
    , brandName := some "Tylenol", genericName := some "Acetaminophen"
    , manufacturer := "Various", availability := Avail.otc, lastUpdated := "2024-01-01"
    , warnings := some ["Do not exceed 4000mg per day", "Avoid alcohol"]
    , interactions := some ["Blood thinners", "Other pain relievers"]
    , description := some "Pain reliever and fever reducer"
    , analogues := some ["eu-paracetamol", "ca-acetaminophen", "us-ibuprofen", "eu-ibuprofen", "ca-ibuprofen"] }
  , { id := "eu-paracetamol", name := "Paracetamol", activeIngredient := "PARACETAMOL"
    , dosageForm := "Tablet", strength := "500mg", country := "EU"
    , brandName := some "Panadol", genericName := some "Paracetamol"
    , manufacturer := "Various", availability := Avail.otc, lastUpdated := "2024-01-01"
    , warnings := some ["Do not exceed 4000mg per day", "Avoid alcohol"]
    , interactions := some ["Blood thinners", "Other pain relievers"]
    , description := some "Pain reliever and fever reducer"
    , analogues := some ["us-acetaminophen", "ca-acetaminophen", "eu-ibuprofen", "us-ibuprofen", "ca-ibuprofen"] }
  , { id := "ca-acetaminophen", name := "Acetaminophen", activeIngredient := "ACETAMINOPHEN"
    , dosageForm := "Tablet", strength := "500mg", country := "CA"
    , brandName := some "Tylenol", genericName := some "Acetaminophen"
    , manufacturer := "Various", availability := Avail.otc, lastUpdated := "2024-01-01"
    , warnings := some ["Do not exceed 4000mg per day", "Avoid alcohol"]
    , interactions := some ["Blood thinners", "Other pain relievers"]
    , description := some "Pain reliever and fever reducer"
    , analogues := some ["us-acetaminophen", "eu-paracetamol", "ca-ibuprofen", "us-ibuprofen", "eu-ibuprofen"] }
  , { id := "us-aspirin", name := "Aspirin", activeIngredient := "ASPIRIN"
    , dosageForm := "Tablet", strength := "325mg", country := "US"
    , brandName := some "Bayer", genericName := some "Aspirin"
    , manufacturer := "Various", availability := Avail.otc, lastUpdated := "2024-01-01"
    , warnings := some ["Take with food", "Avoid if bleeding disorder"]
    , interactions := some ["Blood thinners", "Other NSAIDs"]
    , description := some "Pain reliever and blood thinner"
    , analogues := some ["eu-aspirin", "ca-aspirin", "us-ibuprofen", "eu-ibuprofen", "ca-ibuprofen"] }
  , { id := "eu-aspirin", name := "Aspirin", activeIngredient := "ASPIRIN"
    , dosageForm := "Tablet", strength := "500mg", country := "EU"
    , brandName := some "Bayer", genericName := some "Aspirin"
    , manufacturer := "Various", availability := Avail.otc, lastUpdated := "2024-01-01"
    , warnings := some ["Take with food", "Avoid if bleeding disorder"]
    , interactions := some ["Blood thinners", "Other NSAIDs"]
    , description := some "Pain reliever and blood thinner"
    , analogues := some ["us-aspirin", "ca-aspirin", "eu-ibuprofen", "us-ibuprofen", "ca-ibuprofen"] }
  , { id := "ca-aspirin", name := "Aspirin", activeIngredient := "ASPIRIN"
    , dosageForm := "Tablet", strength := "325mg", country := "CA"
    , brandName := some "Bayer", genericName := some "Aspirin"
    , manufacturer := "Various", availability := Avail.otc, lastUpdated := "2024-01-01"
    , warnings := some ["Take with food", "Avoid if bleeding disorder"]
    , interactions := some ["Blood thinners", "Other NSAIDs"]
    , description := some "Pain reliever and blood thinner"
    , analogues := some ["us-aspirin", "eu-aspirin", "ca-ibuprofen", "us-ibuprofen", "eu-ibuprofen"] }
  , { id := "us-diphenhydramine", name := "Diphenhydramine", activeIngredient := "DIPHENHYDRAMINE"
    , dosageForm := "Tablet", strength := "25mg", country := "US"
    , brandName := some "Benadryl", genericName := some "Diphenhydramine"
    , manufacturer := "Various", availability := Avail.otc, lastUpdated := "2024-01-01"
    , warnings := some ["May cause drowsiness", "Do not drive after taking"]
    , interactions := some ["Alcohol", "Other sedatives"]
    , description := some "Antihistamine for allergies and sleep aid"
    , analogues := some ["eu-diphenhydramine", "ca-diphenhydramine", "us-cetirizine", "eu-cetirizine", "ca-cetirizine"] }
  , { id := "eu-diphenhydramine", name := "Diphenhydramine", activeIngredient := "DIPHENHYDRAMINE"
    , dosageForm := "Tablet", strength := "25mg", country := "EU"
    , brandName := some "Benadryl", genericName := some "Diphenhydramine"
    , manufacturer := "Various", availability := Avail.otc, lastUpdated := "2024-01-01"
    , warnings := some ["May cause drowsiness", "Do not drive after taking"]
    , interactions := some ["Alcohol", "Other sedatives"]
    , description := some "Antihistamine for allergies and sleep aid"
    , analogues := some ["us-diphenhydramine", "ca-diphenhydramine", "eu-cetirizine", "us-cetirizine", "ca-cetirizine"] }
  , { id := "ca-diphenhydramine", name := "Diphenhydramine", activeIngredient := "DIPHENHYDRAMINE"
    , dosageForm := "Tablet", strength := "25mg", country := "CA"
    , brandName := some "Benadryl", genericName := some "Diphenhydramine"
    , manufacturer := "Various", availability := Avail.otc, lastUpdated := "2024-01-01"
    , warnings := some ["May cause drowsiness", "Do not drive after taking"]
    , interactions := some ["Alcohol", "Other sedatives"]
    , description := some "Antihistamine for allergies and sleep aid"
    , analogues := some ["us-diphenhydramine", "eu-diphenhydramine", "ca-cetirizine", "us-cetirizine", "eu-cetirizine"] }
  , { id := "us-cetirizine", name := "Cetirizine", activeIngredient := "CETIRIZINE"
    , dosageForm := "Tablet", strength := "10mg", country := "US"
    , brandName := some "Zyrtec", genericName := some "Cetirizine"
    , manufacturer := "Various", availability := Avail.otc, lastUpdated := "2024-01-01"
    , warnings := some ["May cause drowsiness", "Take once daily"]
    , interactions := some ["Alcohol", "Other sedatives"]
    , description := some "Non-drowsy antihistamine for allergies"
    , analogues := some ["eu-cetirizine", "ca-cetirizine", "us-diphenhydramine", "eu-diphenhydramine", "ca-diphenhydramine"] }
  , { id := "eu-cetirizine", name := "Cetirizine", activeIngredient := "CETIRIZINE"
    , dosageForm := "Tablet", strength := "10mg", country := "EU"
    , brandName := some "Zyrtec", genericName := some "Cetirizine"
    , manufacturer := "Various", availability := Avail.otc, lastUpdated := "2024-01-01"
    , warnings := some ["May cause drowsiness", "Take once daily"]
    , interactions := some ["Alcohol", "Other sedatives"]
    , description := some "Non-drowsy antihistamine for allergies"
    , analogues := some ["us-cetirizine", "ca-cetirizine", "eu-diphenhydramine", "us-diphenhydramine", "ca-diphenhydramine"] }
  , { id := "ca-cetirizine", name := "Cetirizine", activeIngredient := "CETIRIZINE"
    , dosageForm := "Tablet", strength := "10mg", country := "CA"
    , brandName := some "Reactine", genericName := some "Cetirizine"
    , manufacturer := "Various", availability := Avail.otc, lastUpdated := "2024-01-01"
    , warnings := some ["May cause drowsiness", "Take once daily"]
    , interactions := some ["Alcohol", "Other sedatives"]
    , description := some "Non-drowsy antihistamine for allergies"
    , analogues := some ["us-cetirizine", "eu-cetirizine", "ca-diphenhydramine", "us-diphenhydramine", "eu-diphenhydramine"] }
  , { id := "us-omeprazole", name := "Omeprazole", activeIngredient := "OMEPRAZOLE"
    , dosageForm := "Capsule", strength := "20mg", country := "US"
    , brandName := some "Prilosec", genericName := some "Omeprazole"
    , manufacturer := "Various", availability := Avail.otc, lastUpdated := "2024-01-01"
    , warnings := some ["Take before meals", "Do not use for more than 14 days"]
    , interactions := some ["Iron supplements", "Other medications"]
    , description := some "Proton pump inhibitor for heartburn and acid reflux"
    , analogues := some ["eu-omeprazole", "ca-omeprazole", "us-ranitidine", "eu-ranitidine", "ca-ranitidine"] }
  , { id := "eu-omeprazole", name := "Omeprazole", activeIngredient := "OMEPRAZOLE"
    , dosageForm := "Capsule", strength := "20mg", country := "EU"
    , brandName := some "Losec", genericName := some "Omeprazole"
    , manufacturer := "Various", availability := Avail.otc, lastUpdated := "2024-01-01"
    , warnings := some ["Take before meals", "Do not use for more than 14 days"]
    , interactions := some ["Iron supplements", "Other medications"]
    , description := some "Proton pump inhibitor for heartburn and acid reflux"
    , analogues := some ["us-omeprazole", "ca-omeprazole", "eu-ranitidine", "us-ranitidine", "ca-ranitidine"] }
  , { id := "ca-omeprazole", name := "Omeprazole", activeIngredient := "OMEPRAZOLE"
    , dosageForm := "Capsule", strength := "20mg", country := "CA"
    , brandName := some "Losec", genericName := some "Omeprazole"
    , manufacturer := "Various", availability := Avail.otc, lastUpdated := "2024-01-01"
    , warnings := some ["Take before meals", "Do not use for more than 14 days"]
    , interactions := some ["Iron supplements", "Other medications"]
    , description := some "Proton pump inhibitor for heartburn and acid reflux"
    , analogues := some ["us-omeprazole", "eu-omeprazole", "ca-ranitidine", "us-ranitidine", "eu-ranitidine"] }
  , { id := "us-ranitidine", name := "Ranitidine", activeIngredient := "RANITIDINE"
    , dosageForm := "Tablet", strength := "150mg", country := "US"
    , brandName := some "Zantac", genericName := some "Ranitidine"
    , manufacturer := "Various", availability := Avail.otc, lastUpdated := "2024-01-01"
    , warnings := some ["Take before meals", "May cause drowsiness"]
    , interactions := some ["Iron supplements", "Other medications"]
    , description := some "H2 blocker for heartburn and acid reflux"
    , analogues := some ["eu-ranitidine", "ca-ranitidine", "us-omeprazole", "eu-omeprazole", "ca-omeprazole"] }
  , { id := "eu-ranitidine", name := "Ranitidine", activeIngredient := "RANITIDINE"
    , dosageForm := "Tablet", strength := "150mg", country := "EU"
    , brandName := some "Zantac", genericName := some "Ranitidine"
    , manufacturer := "Various", availability := Avail.otc, lastUpdated := "2024-01-01"
    , warnings := some ["Take before meals", "May cause drowsiness"]
    , interactions := some ["Iron supplements", "Other medications"]
    , description := some "H2 blocker for heartburn and acid reflux"
    , analogues := some ["us-ranitidine", "ca-ranitidine", "eu-omeprazole", "us-omeprazole", "ca-omeprazole"] }
  , { id := "ca-ranitidine", name := "Ranitidine", activeIngredient := "RANITIDINE"
    , dosageForm := "Tablet", strength := "150mg", country := "CA"
    , brandName := some "Zantac", genericName := some "Ranitidine"
    , manufacturer := "Various", availability := Avail.otc, lastUpdated := "2024-01-01"
    , warnings := some ["Take before meals", "May cause drowsiness"]
    , interactions := some ["Iron supplements", "Other medications"]
    , description := some "H2 blocker for heartburn and acid reflux"
    , analogues := some ["us-ranitidine", "eu-ranitidine", "ca-omeprazole", "us-omeprazole", "eu-omeprazole"] }
  , { id := "us-melatonin", name := "Melatonin", activeIngredient := "MELATONIN"
    , dosageForm := "Tablet", strength := "3mg", country := "US"
    , brandName := some "Various", genericName := some "Melatonin"
    , manufacturer := "Various", availability := Avail.otc, lastUpdated := "2024-01-01"
    , warnings := some ["Take 30 minutes before bed", "May cause drowsiness"]
    , interactions := some ["Blood pressure medications", "Sedatives"]
    , description := some "Natural sleep hormone supplement"
    , analogues := some ["eu-melatonin", "ca-melatonin", "us-diphenhydramine", "eu-diphenhydramine", "ca-diphenhydramine"] }
  , { id := "eu-melatonin", name := "Melatonin", activeIngredient := "MELATONIN"
    , dosageForm := "Tablet", strength := "3mg", country := "EU"
    , brandName := some "Various", genericName := some "Melatonin"
    , manufacturer := "Various", availability := Avail.otc, lastUpdated := "2024-01-01"
    , warnings := some ["Take 30 minutes before bed", "May cause drowsiness"]
    , interactions := some ["Blood pressure medications", "Sedatives"]
    , description := some "Natural sleep hormone supplement"
    , analogues := some ["us-melatonin", "ca-melatonin", "eu-diphenhydramine", "us-diphenhydramine", "ca-diphenhydramine"] }
  , { id := "ca-melatonin", name := "Melatonin", activeIngredient := "MELATONIN"
    , dosageForm := "Tablet", strength := "3mg", country := "CA"
    , brandName := some "Various", genericName := some "Melatonin"
    , manufacturer := "Various", availability := Avail.otc, lastUpdated := "2024-01-01"
    , warnings := some ["Take 30 minutes before bed", "May cause drowsiness"]
    , interactions := some ["Blood pressure medications", "Sedatives"]
    , description := some "Natural sleep hormone supplement"
    , analogues := some ["us-melatonin", "eu-melatonin", "ca-diphenhydramine", "us-diphenhydramine", "eu-diphenhydramine"] } ]

/-- The `matchType` discriminator of a `SuggestionItem`. -/
inductive MatchType
  | brand
  | generic
  | ingredient
deriving DecidableEq, Repr

/-- The `SuggestionItem` interface (src/unnamed/part_001). -/
structure SuggestionItem where
  name : String
  brandName : Option String
  genericName : Option String
  activeIngredient : String
  country : String
  matchType : MatchType
  matchText : String
deriving DecidableEq, Repr

/-- The brand / generic / ingredient `if`/`else if` cascade applied to one
catalog record inside `searchAutocompleteSuggestions`. -/
def suggestionOfDrug (queryLower : String) (drug : LocalDrug) : List SuggestionItem :=
  if (match drug.brandName with
      | some b => jsIncludes (jsLower b) queryLower
      | none => false) then
    [{ name := drug.name, brandName := drug.brandName, genericName := drug.genericName
     , activeIngredient := drug.activeIngredient, country := drug.country
     , matchType := MatchType.brand, matchText := drug.brandName.getD "" }]
  else if (match drug.genericName with
      | some g => jsIncludes (jsLower g) queryLower
      | none => false) then
    [{ name := drug.name, brandName := drug.brandName, genericName := drug.genericName
     , activeIngredient := drug.activeIngredient, country := drug.country
     , matchType := MatchType.generic, matchText := drug.genericName.getD "" }]
  else if jsIncludes (jsLower drug.activeIngredient) queryLower then
    [{ name := drug.name, brandName := drug.brandName, genericName := drug.genericName
     , activeIngredient := drug.activeIngredient, country := drug.country
     , matchType := MatchType.ingredient, matchText := drug.activeIngredient }]
  else []

/-- The key equality of the suggestion deduplication:
`m.name === match.name && m.country === match.country`. -/
def sameNameCountry (m p : SuggestionItem) : Bool :=
  m.name == p.name && m.country == p.country

/-- The deduplication step of `searchAutocompleteSuggestions`:
`matches.filter((match, index, self) => index === self.findIndex(...))`,
keeping an element exactly when its index is the first index holding its
`(name, country)` key. -/
def dedupNameCountry (l : List SuggestionItem) : List SuggestionItem :=
  (l.enum.filter fun p => l.findIdx? (fun m => sameNameCountry m p.2) == some p.1).map
    Prod.snd

/-- `LocalMedicationService.searchAutocompleteSuggestions`: queries shorter
than 2 characters are rejected, matches collected per record, deduplicated
by `(name, country)` and truncated to the limit. -/
def searchAutocompleteSuggestions (query : String) (limit : Nat) : List SuggestionItem :=
  if query.length < 2 then []
  else
    let queryLower := jsLower query
    let found := POPULAR_OTC_MEDICATIONS.flatMap (suggestionOfDrug queryLower)
    (dedupNameCountry found).take limit

/-- `LocalMedicationService.findOriginalMedication`: first catalog record
whose name, brand name or active ingredient equals the lower-cased query. -/
def findOriginalMedication (query : String) : Option LocalDrug :=
  let queryLower := jsLower query
  POPULAR_OTC_MEDICATIONS.find? fun drug =>
    jsLower drug.name == queryLower ||
      (match drug.brandName with
        | some b => jsLower b == queryLower
        | none => false) ||
      jsLower drug.activeIngredient == queryLower

/-- `LocalMedicationService.searchAnalogues`: catalog records with the given
active ingredient in the destination country, truncated to the limit. -/
def searchAnalogues (activeIngredient destinationCountry : String) (limit : Nat) :
    List LocalDrug :=
  (POPULAR_OTC_MEDICATIONS.filter fun drug =>
      drug.activeIngredient == activeIngredient && drug.country == destinationCountry).take
    limit

/-- `LocalMedicationService.getRelatedMedications`: catalog records whose id
occurs in the given id list, truncated to the limit. -/
def getRelatedMedications (analogueIds : List String) (limit : Nat) : List LocalDrug :=
  (POPULAR_OTC_MEDICATIONS.filter fun drug => analogueIds.contains drug.id).take limit

/-- `MedicationService.convertLocalDrugToMedication` (src/unnamed/part_005):
copies every field, overriding `country` with the function argument. -/
def convertLocalDrugToMedication (drug : LocalDrug) (country : String) : Medication :=
  { id := drug.id
  , name := drug.name
  , activeIngredient := drug.activeIngredient
  , dosageForm := drug.dosageForm
  , strength := drug.strength
  , country := country
  , brandName := drug.brandName
  , genericName := drug.genericName
  , manufacturer := drug.manufacturer
  , availability := drug.availability
  , lastUpdated := drug.lastUpdated
  , warnings := drug.warnings
  , interactions := drug.interactions
  , description := drug.description }

/-- The fallback message of the local pipeline when no analogues remain. -/
def localNoAnaloguesMsg (destinationCountry : String) (orig : LocalDrug) : String :=
  "No " ++ destinationCountry ++ " analogues found for " ++ orig.name ++ " (" ++
    orig.activeIngredient ++
    "). This could be due to:\n\n• Different regulatory approval status\n• Different brand names or formulations\n• Limited data availability\n• Regional restrictions\n\nPlease consult a local healthcare provider or pharmacist for medication alternatives."

/-- Steps 2–5 of `MedicationService.searchMedications` in the local-database
pipeline (src/unnamed/part_005): collect same-ingredient analogues in the
destination country, refetch them as "related medications" (passing the ids
of the analogues just found), restrict to the destination country, convert,
and drop the record with the original's id. -/
def localFinalAnalogues (originalMedication : LocalDrug) (destinationCountry : String) :
    List Medication :=
  let analogues :=
    searchAnalogues originalMedication.activeIngredient destinationCountry 15
  let allAnalogues :=
    if analogues.length > 0 then
      analogues ++ getRelatedMedications (analogues.map LocalDrug.id) 15
    else []
  let convertedAnalogues :=
    (allAnalogues.filter fun drug => drug.country == destinationCountry).map
      fun drug => convertLocalDrugToMedication drug destinationCountry
  convertedAnalogues.filter fun analogue => analogue.id != originalMedication.id

/-- `MedicationService.searchMedications` of the local-database pipeline
(continued): the fetch steps are in `localFinalAnalogues`; here the result
record is assembled with confidence 0.9 (or 0.3 plus fallback text). -/
def localSearchMedications (query sourceCountry destinationCountry : String) :
    Option SearchResult :=
  match findOriginalMedication query with
  | none => none
  | some originalMedication =>
    let finalAnalogues := localFinalAnalogues originalMedication destinationCountry
    some
      { originalMedication := convertLocalDrugToMedication originalMedication sourceCountry
      , analogues := finalAnalogues
      , confidence := if finalAnalogues.length > 0 then (0.9 : ℚ) else 0.3
      , warnings := standardWarnings
      , apiSource := "Local Medication Database"
      , noAnaloguesFound := if finalAnalogues.length = 0 then some true else none
      , fallbackMessage :=
          if finalAnalogues.length = 0 then
            some (localNoAnaloguesMsg destinationCountry originalMedication)
          else none }

/-! Concrete drugs, remote payloads and environments used to evaluate the
pipelines on closed inputs. -/

/-- An OpenFDA label for Advil (brand `Advil`, generic `Ibuprofen`,
ingredient `IBUPROFEN`). -/
def advilDrug : OpenFDADrug :=
  { openfda :=
      { brand_name := ["Advil"], generic_name := ["Ibuprofen"]
      , manufacturer_name := ["Pfizer"], substance_name := ["IBUPROFEN"]
      , dosage_form := ["TABLET"], route := ["ORAL"] }
  , active_ingredient := ["IBUPROFEN"]
  , active_ingredients := [{ name := "IBUPROFEN", strength := "200 MG" }]
  , drug_interactions := ["May interact with blood thinners"]
  , warnings := ["May cause stomach upset"]
  , description := ["Non-steroidal anti-inflammatory drug"] }

/-- An OpenFDA label for Motrin (brand `Motrin`, generic `Ibuprofen`): a
genuine ibuprofen analogue distinct from Advil. -/
def motrinDrug : OpenFDADrug :=
  { openfda :=
      { brand_name := ["Motrin"], generic_name := ["Ibuprofen"]
      , manufacturer_name := ["Johnson & Johnson"], substance_name := ["IBUPROFEN"]
      , dosage_form := ["TABLET"], route := ["ORAL"] }
  , active_ingredient := ["IBUPROFEN"]
  , active_ingredients := [{ name := "IBUPROFEN", strength := "200 MG" }]
  , drug_interactions := ["May interact with blood thinners"]
  , warnings := ["May cause stomach upset"]
  , description := ["Non-steroidal anti-inflammatory drug"] }

/-- An OpenFDA label for Aleve, whose active ingredient `NAPROXEN` differs
from ibuprofen: a remote response the ingredient strategies never
re-validate. -/
def naproxenDrug : OpenFDADrug :=
  { openfda :=
      { brand_name := ["Aleve"], generic_name := ["Naproxen"]
      , manufacturer_name := ["Bayer"], substance_name := ["NAPROXEN"]
      , dosage_form := ["TABLET"], route := ["ORAL"] }
  , active_ingredient := ["NAPROXEN"]
  , active_ingredients := [{ name := "NAPROXEN", strength := "220 MG" }]
  , drug_interactions := ["May interact with blood thinners"]
  , warnings := ["May cause stomach upset"]
  , description := ["Non-steroidal anti-inflammatory drug"] }

/-- An OpenFDA label that spells the same product in capitals
(`ADVIL` / `IBUPROFEN`): distinct under the case-sensitive same-product
filter, yet lower-cased to the very same id by the conversion. -/
def advilCapsDrug : OpenFDADrug :=
  { openfda :=
      { brand_name := ["ADVIL"], generic_name := ["IBUPROFEN"]
      , manufacturer_name := ["Pfizer"], substance_name := ["IBUPROFEN"]
      , dosage_form := ["TABLET"], route := ["ORAL"] }
  , active_ingredient := ["IBUPROFEN"]
  , active_ingredients := [{ name := "IBUPROFEN", strength := "200 MG" }]
  , drug_interactions := ["May interact with blood thinners"]
  , warnings := ["May cause stomach upset"]
  , description := ["Non-steroidal anti-inflammatory drug"] }

/-- An OpenFDA label with no ingredient fields at all: its conversion has an
empty `activeIngredient`. -/
def fooDrug : OpenFDADrug :=
  { openfda :=
      { brand_name := ["Foo"], generic_name := []
      , manufacturer_name := [], substance_name := []
      , dosage_form := [], route := [] }
  , active_ingredient := []
  , active_ingredients := []
  , drug_interactions := []
  , warnings := []
  , description := [] }

/-- An EU remote payload whose availability field says `prescription`. -/
def emaPrescriptionRaw : RegionRaw :=
  { name := some "Nurofen", brandName := some "Nurofen"
  , genericName := some "Ibuprofen", dosageForm := some "Tablet"
  , strength := some "400mg", manufacturer := some "Reckitt Benckiser"
  , availability := some Avail.prescription
  , warnings := none, interactions := none, description := none }

/-- An EU remote payload with over-the-counter availability. -/
def emaOtcRaw : RegionRaw :=
  { name := some "Nurofen", brandName := some "Nurofen"
  , genericName := some "Ibuprofen", dosageForm := some "Tablet"
  , strength := some "400mg", manufacturer := some "Reckitt Benckiser"
  , availability := some Avail.otc
  , warnings := none, interactions := none, description := none }

/-- Environment: Advil resolvable, the ingredient strategy legitimately
empty, and the EMA endpoint answering with a prescription-only product. -/
def envEmaPrescription : ApiEnv :=
  { label := fun s _ =>
      if s = "openfda.brand_name:Advil" then Except.ok [advilDrug]
      else if s = ingredientSearchString "IBUPROFEN" then Except.ok []
      else Except.error ()
  , region := fun ep ing _ =>
      if ep = RegionEndpoint.emaDirect ∧ ing = "IBUPROFEN" then
        Except.ok [emaPrescriptionRaw]
      else Except.error () }

/-- Environment: the ingredient strategy returns a naproxen product for an
ibuprofen query. -/
def envNaproxen : ApiEnv :=
  { label := fun s _ =>
      if s = "openfda.brand_name:Advil" then Except.ok [advilDrug]
      else if s = ingredientSearchString "IBUPROFEN" then Except.ok [naproxenDrug]
      else Except.error ()
  , region := fun _ _ _ => Except.error () }

/-- Environment: the ingredient strategy returns the capitalised duplicate
of the original product. -/
def envCaseCollision : ApiEnv :=
  { label := fun s _ =>
      if s = "openfda.brand_name:Advil" then Except.ok [advilDrug]
      else if s = ingredientSearchString "IBUPROFEN" then Except.ok [advilCapsDrug]
      else Except.error ()
  , region := fun _ _ _ => Except.error () }

/-- Environment: resolution succeeds but every other request — including
the uncaught `searchByActiveIngredient` — throws. -/
def envStrategyError : ApiEnv :=
  { label := fun s _ =>
      if s = "openfda.brand_name:Advil" then Except.ok [advilDrug]
      else Except.error ()
  , region := fun _ _ _ => Except.error () }

/-- Environment: no request ever throws; everything but the Advil brand
search is empty. -/
def envAllOk : ApiEnv :=
  { label := fun s _ =>
      if s = "openfda.brand_name:Advil" then Except.ok [advilDrug]
      else Except.ok []
  , region := fun _ _ _ => Except.ok [] }

/-- Environment: the ingredient strategy is empty and the generic-name
strategy finds Motrin. -/
def envGenericWins : ApiEnv :=
  { label := fun s _ =>
      if s = ingredientSearchString "IBUPROFEN" then Except.ok []
      else if s = "openfda.generic_name:IBUPROFEN" then Except.ok [motrinDrug]
      else Except.error ()
  , region := fun _ _ _ => Except.error () }

/-- Environment: the search resolves Advil by generic name, but the only
analogue candidate is the original product itself, so ranking leaves
nothing. -/
def envNoCandidates : ApiEnv :=
  { label := fun s _ =>
      if s = "openfda.generic_name:IBUPROFEN" then Except.ok [advilDrug]
      else if s = ingredientSearchString "IBUPROFEN" then Except.ok []
      else Except.error ()
  , region := fun _ _ _ => Except.error () }

/-- Environment: Foo resolves to a record with no active ingredient. -/
def envFoo : ApiEnv :=
  { label := fun s _ =>
      if s = "openfda.brand_name:Foo" then Except.ok [fooDrug]
      else Except.error ()
  , region := fun _ _ _ => Except.error () }

/-- Environment: one OpenFDA analogue (Motrin) plus one curated EU analogue
— the curated one is appended after the remote one. -/
def envEmaOtc : ApiEnv :=
  { label := fun s _ =>
      if s = "openfda.brand_name:Advil" then Except.ok [advilDrug]
      else if s = ingredientSearchString "IBUPROFEN" then Except.ok [motrinDrug]
      else Except.error ()
  , region := fun ep ing _ =>
      if ep = RegionEndpoint.emaDirect ∧ ing = "IBUPROFEN" then Except.ok [emaOtcRaw]
      else Except.error () }

/-! Decidable statements of the spec's result invariants, evaluated on a
pipeline output. -/

/-- Every analogue of the result (if any) is over-the-counter. -/
def allAnaloguesOtc (o : Option SearchResult) : Bool :=
  match o with
  | none => true
  | some r => r.analogues.all fun m => m.availability == Avail.otc

/-- Every analogue of the result shares the original's active ingredient.
The API pipeline's `Medication` carries no `analogueRefs` field, so the
spec's second disjunct (id referenced by the original's `analogueRefs`) is
vacuous for its results. -/
def analoguesShareIngredient (o : Option SearchResult) : Bool :=
  match o with
  | none => true
  | some r =>
    r.analogues.all fun m => m.activeIngredient == r.originalMedication.activeIngredient

/-- No analogue of the result carries the original medication's id. -/
def noSelfAnalogue (o : Option SearchResult) : Bool :=
  match o with
  | none => true
  | some r => r.analogues.all fun m => m.id != r.originalMedication.id

/-- The analogue list of an optional result. -/
def analoguesOf (o : Option SearchResult) : List Medication :=
  match o with
  | none => []
  | some r => r.analogues

/-! The ranking layer: `AnaloguesTable`
(src/src/components/AnaloguesTable.tsx).  The component annotates each
analogue of the result with its own confidence and match type (lines
22–45), filters by the availability dropdown, applies the column sort, and
finally re-sorts the whole list descending by the per-candidate confidence
(line 94).  JavaScript's `Array.prototype.sort` is required to be stable,
and is modelled by the stable `List.insertionSort`; the locale-dependent
`String.localeCompare` collation is an input (`loc`), like the network
responses. -/

/-- The `SortField` union of the analogues table. -/
inductive SortField
  | name
  | genericName
  | manufacturer
  | strength
  | availability
deriving DecidableEq, Repr

/-- The `SortDirection` union of the analogues table. -/
inductive SortDirection
  | asc
  | desc
deriving DecidableEq, Repr

/-- The `matchType` of an annotated analogue; the TS string values are
`'exact'`, `'partial'` and `'region-specific'`. -/
inductive MatchQuality
  | exactMatch
  | partialMatch
  | regionSpecific
deriving DecidableEq, Repr

/-- `AnalogueWithConfidence extends Medication`: the analogue together with
the table's per-candidate confidence and match type. -/
structure AnalogueWithConfidence where
  med : Medication
  confidence : ℚ
  matchType : MatchQuality
deriving DecidableEq, Repr

/-- The region-specific test of AnaloguesTable.tsx lines 28–29:
`(id.includes('eu-') && country === 'EU') ||
 (id.includes('ca-') && country === 'CA')`. -/
def isRegionSpecific (analogue : Medication) : Bool :=
  (jsIncludes analogue.id "eu-" && analogue.country == "EU") ||
    (jsIncludes analogue.id "ca-" && analogue.country == "CA")

/-- The per-candidate confidence and match type assigned to one analogue
(AnaloguesTable.tsx lines 22–45): base 0.7 with `matchType 'exact'`;
region-specific records get 0.9; otherwise 0.8 when both `genericName` and
`activeIngredient` are truthy. -/
def annotateAnalogue (analogue : Medication) : AnalogueWithConfidence :=
  if isRegionSpecific analogue then
    { med := analogue, confidence := 0.9, matchType := MatchQuality.regionSpecific }
  else if optTruthy analogue.genericName && jsTruthy analogue.activeIngredient then
    { med := analogue, confidence := 0.8, matchType := MatchQuality.exactMatch }
  else
    { med := analogue, confidence := 0.7, matchType := MatchQuality.exactMatch }

/-- The string of the `availability` enum value, as the TS code sees it. -/
def availString : Avail → String
  | Avail.otc => "otc"
  | Avail.prescription => "prescription"
  | Avail.unavailable => "unavailable"

/-- The lower-cased sort key selected by the column-sort `switch`
(AnaloguesTable.tsx lines 61–84). -/
def fieldSortKey (f : SortField) (a : AnalogueWithConfidence) : String :=
  match f with
  | SortField.name => jsLower a.med.name
  | SortField.genericName => jsLower (jsOrD a.med.genericName "")
  | SortField.manufacturer => jsLower a.med.manufacturer
  | SortField.strength => jsLower a.med.strength
  | SortField.availability => jsLower (availString a.med.availability)

/-- The column-sort order: under a stable sort, `a` stays before `b` exactly
when the comparator is ≤ 0, i.e. when `localeCompare` does not answer
`gt` (ascending compares `a` to `b`, descending the reverse). -/
def fieldRel (loc : String → String → Ordering) (f : SortField) (dir : SortDirection)
    (a b : AnalogueWithConfidence) : Prop :=
  match dir with
  | SortDirection.asc => loc (fieldSortKey f a) (fieldSortKey f b) ≠ Ordering.gt
  | SortDirection.desc => loc (fieldSortKey f b) (fieldSortKey f a) ≠ Ordering.gt

instance (loc : String → String → Ordering) (f : SortField) (dir : SortDirection) :
    DecidableRel (fieldRel loc f dir) := fun a b => by
  unfold fieldRel
  cases dir <;> infer_instance

/-- The confidence re-sort comparator `(a, b) => b.confidence - a.confidence`
(AnaloguesTable.tsx line 94): under a stable sort, `a` stays before `b`
exactly when `b.confidence ≤ a.confidence`. -/
def confDescRel (a b : AnalogueWithConfidence) : Prop :=
  b.confidence ≤ a.confidence

instance : DecidableRel confDescRel := fun a b =>
  inferInstanceAs (Decidable (b.confidence ≤ a.confidence))

instance : IsTotal AnalogueWithConfidence confDescRel :=
  ⟨fun a b => le_total b.confidence a.confidence⟩

instance : IsTrans AnalogueWithConfidence confDescRel :=
  ⟨fun _ _ _ h1 h2 => le_trans h2 h1⟩

/-- `sortedAndFilteredAnalogues` (AnaloguesTable.tsx lines 48–97): annotate
every analogue with its confidence, filter by the availability selection
(`'all'` keeps everything), sort by the selected column, then re-sort the
whole list descending by per-candidate confidence. -/
def sortedAndFilteredAnalogues (loc : String → String → Ordering) (sortField : SortField)
    (sortDirection : SortDirection) (filterAvailability : String)
    (analogues : List Medication) : List AnalogueWithConfidence :=
  let analoguesWithConfidence := analogues.map annotateAnalogue
  let filtered :=
    if filterAvailability ≠ "all" then
      analoguesWithConfidence.filter fun a => availString a.med.availability == filterAvailability
    else analoguesWithConfidence
  let fieldSorted := List.insertionSort (fieldRel loc sortField sortDirection) filtered
  List.insertionSort confDescRel fieldSorted

/-- The Canadian region payload returned by the Health-Canada endpoint in
the counterexample environment. -/
def canadianOtcRaw : RegionRaw :=
  { name := some "Nurofen", brandName := some "Nurofen"
  , genericName := some "Ibuprofen", dosageForm := some "Tablet"
  , strength := some "200mg", manufacturer := some "Reckitt Benckiser"
  , availability := some Avail.otc
  , warnings := none, interactions := none, description := none }

/-- Environment: Advil resolvable, all OpenFDA strategies empty or failing,
and the Health-Canada endpoint answering with one curated candidate. -/
def envCanadaCurated : ApiEnv :=
  { label := fun s _ =>
      if s = "openfda.brand_name:Advil" then Except.ok [advilDrug]
      else if s = ingredientSearchString "IBUPROFEN" then Except.ok []
      else Except.error ()
  , region := fun ep ing _ =>
      if ep = RegionEndpoint.healthCanada ∧ ing = "IBUPROFEN" then
        Except.ok [canadianOtcRaw]
      else Except.error () }

/-- A resolved ibuprofen medication used to exercise the strategy phase
directly. -/
def origIbu : Medication :=
  { id := "us-advil-ibuprofen"
  , name := "Advil"
  , activeIngredient := "IBUPROFEN"
  , dosageForm := "TABLET"
  , strength := "200 MG"
  , country := "US"
  , brandName := some "Advil"
  , genericName := some "Ibuprofen"
  , manufacturer := "Pfizer"
  , availability := Avail.otc
  , lastUpdated := "now"
  , warnings := some []
  , interactions := some []
  , description := some "" }

theorem string_append_data (a b : String) : (a ++ b).data = a.data ++ b.data := by
  cases a; cases b; rfl

theorem string_append_ne_left (a b : String) (h : a ≠ "") : a ++ b ≠ "" := by
  intro he
  apply h
  have hd : a.data ++ b.data = ([] : List Char) := by
    simpa [string_append_data] using congrArg String.data he
  have ha : a.data = [] := (List.append_eq_nil.mp hd).1
  cases a with
  | mk d => cases ha; rfl

theorem noAnaloguesMsg_ne_empty (orig : Medication) (dc : String) :
    noAnaloguesMsg orig dc ≠ "" := by
  unfold noAnaloguesMsg
  exact string_append_ne_left _ _ (string_append_ne_left _ _ (string_append_ne_left _ _
    (string_append_ne_left _ _ (string_append_ne_left _ _ (string_append_ne_left _ _
      (by decide))))))

theorem localNoAnaloguesMsg_ne_empty (dc : String) (orig : LocalDrug) :
    localNoAnaloguesMsg dc orig ≠ "" := by
  unfold localNoAnaloguesMsg
  exact string_append_ne_left _ _ (string_append_ne_left _ _ (string_append_ne_left _ _
    (string_append_ne_left _ _ (string_append_ne_left _ _ (string_append_ne_left _ _
      (by decide))))))

theorem finalizeResult_originalMedication (o : Medication) (dc : String)
    (an : List Medication) : (finalizeResult o dc an).originalMedication = o := rfl

theorem finalizeResult_analogues (o : Medication) (dc : String) (an : List Medication) :
    (finalizeResult o dc an).analogues = an := rfl

theorem finalizeResult_confidence (o : Medication) (dc : String) (an : List Medication) :
    (finalizeResult o dc an).confidence = if an.length > 0 then (0.8 : ℚ) else 0.3 := rfl

theorem finalizeResult_empty (o : Medication) (dc : String) (an : List Medication)
    (h : an = []) :
    (finalizeResult o dc an).confidence = 0.3 ∧
      (finalizeResult o dc an).noAnaloguesFound = some true ∧
      (finalizeResult o dc an).fallbackMessage = some (noAnaloguesMsg o dc) := by
  subst h
  exact ⟨rfl, rfl, rfl⟩

theorem finalizeResult_nonempty (o : Medication) (dc : String) (an : List Medication)
    (h : an ≠ []) :
    (finalizeResult o dc an).confidence = 0.8 ∧
      (finalizeResult o dc an).noAnaloguesFound = none ∧
      (finalizeResult o dc an).fallbackMessage = none := by
  have hlen : an.length ≠ 0 := fun h0 => h (List.length_eq_zero.mp h0)
  unfold finalizeResult
  rw [if_neg hlen, if_neg hlen, if_pos (Nat.pos_of_ne_zero hlen)]
  exact ⟨rfl, rfl, rfl⟩

theorem findBestMatch_isSome (results : List OpenFDADrug) (query : String)
    (h : results ≠ []) : (findBestMatch results query).isSome = true := by
  simp only [findBestMatch]
  split
  · rfl
  · split
    · rfl
    · cases results with
      | nil => exact absurd rfl h
      | cons a t => rfl

theorem catalog_ids_nodup : (POPULAR_OTC_MEDICATIONS.map LocalDrug.id).Nodup := by decide

theorem analoguePhase_of_ok {env : ApiEnv} {orig : Medication} {l1 : List OpenFDADrug}
    (h : searchByActiveIngredient env orig.activeIngredient 15 = Except.ok l1) :
    ∃ tr raw, analoguePhase env orig = (tr, Except.ok raw) := by
  unfold analoguePhase
  rw [h]
  exact ⟨_, _, rfl⟩

theorem analoguePhase_of_error {env : ApiEnv} {orig : Medication} {tr : List Strat}
    {e : Unit} (h : analoguePhase env orig = (tr, Except.error e)) :
    searchByActiveIngredient env orig.activeIngredient 15 = Except.error e := by
  unfold analoguePhase at h
  cases hS : searchByActiveIngredient env orig.activeIngredient 15 with
  | error e2 =>
    cases e
    cases e2
    rfl
  | ok r1 =>
    rw [hS] at h
    simp at h

/-- The empty-ingredient guard of the orchestrator,
`!activeIngredient || !activeIngredient.trim()`, holds exactly when the
trimmed ingredient is empty. -/
theorem ambiguous_guard_iff (s : String) :
    (!jsTruthy s || !jsTruthy (jsTrim s)) = true ↔ jsTrim s = "" := by
  simp only [jsTruthy, Bool.or_eq_true, Bool.not_eq_true', decide_eq_false_iff_not,
    Decidable.not_not]
  constructor
  · rintro (h | h)
    · rw [h]; rfl
    · exact h
  · exact fun h => Or.inr h

theorem searchMedicationsT_some {env : ApiEnv} {q s d : String} {tr : List Strat}
    {r : SearchResult} (h : searchMedicationsT env q s d = (tr, some r)) :
    ∃ b, (searchDrugs env q 10).length ≠ 0 ∧
      findBestMatch (searchDrugs env q 10) q = some b ∧
      ((jsTrim (convertOpenFDADrugToMedication b s).activeIngredient = "" ∧
          r = ambiguousResult (convertOpenFDADrugToMedication b s) ∧ tr = []) ∨
        (jsTrim (convertOpenFDADrugToMedication b s).activeIngredient ≠ "" ∧
          ∃ raw, analoguePhase env (convertOpenFDADrugToMedication b s) =
              (tr, Except.ok raw) ∧
            r = finalizeResult (convertOpenFDADrugToMedication b s) d
              (assembleAnalogues env (convertOpenFDADrugToMedication b s) d raw))) := by
  simp only [searchMedicationsT] at h
  split at h
  · simp at h
  · rename_i hlen
    split at h
    · simp at h
    · rename_i b hb
      refine ⟨b, hlen, hb, ?_⟩
      split at h
      · rename_i hguard
        left
        have htrim := (ambiguous_guard_iff _).mp hguard
        simp only [Prod.mk.injEq] at h
        exact ⟨htrim, (Option.some.inj h.2).symm, h.1.symm⟩
      · rename_i hguard
        right
        have htrim : jsTrim (convertOpenFDADrugToMedication b s).activeIngredient ≠ "" := by
          intro heq
          exact hguard ((ambiguous_guard_iff _).mpr heq)
        refine ⟨htrim, ?_⟩
        split at h
        · simp at h
        · rename_i tr2 raw heq
          simp only [Prod.mk.injEq] at h
          refine ⟨raw, ?_, (Option.some.inj h.2).symm⟩
          rw [heq, h.1]

theorem searchMedicationsT_none {env : ApiEnv} {q s d : String} {tr : List Strat}
    (h : searchMedicationsT env q s d = (tr, none)) :
    (searchDrugs env q 10).length = 0 ∨
      ∃ b, findBestMatch (searchDrugs env q 10) q = some b ∧
        searchByActiveIngredient env
            (convertOpenFDADrugToMedication b s).activeIngredient 15 =
          Except.error () := by
  simp only [searchMedicationsT] at h
  split at h
  · left; assumption
  · rename_i hlen
    right
    split at h
    · rename_i hnone
      have hne : searchDrugs env q 10 ≠ [] := fun h0 => hlen (by rw [h0]; rfl)
      have hs := findBestMatch_isSome (searchDrugs env q 10) q hne
      rw [hnone] at hs
      simp at hs
    · rename_i b hb
      refine ⟨b, hb, ?_⟩
      split at h
      · simp at h
      · split at h
        · rename_i tr2 e heq
          cases e
          exact analoguePhase_of_error heq
        · simp at h

/-- Every medication in the local pipeline's final analogue list is the
conversion of a catalog record with the original's active ingredient, and
never carries the original's id. -/
theorem mem_localFinalAnalogues {orig : LocalDrug} {d : String} {m : Medication}
    (hm : m ∈ localFinalAnalogues orig d) :
    ∃ drug, drug ∈ POPULAR_OTC_MEDICATIONS ∧ m = convertLocalDrugToMedication drug d ∧
      drug.activeIngredient = orig.activeIngredient ∧ m.id ≠ orig.id := by
  simp only [localFinalAnalogues] at hm
  obtain ⟨hmem, hid⟩ := List.mem_filter.mp hm
  obtain ⟨drug, hdrug, rfl⟩ := List.mem_map.mp hmem
  obtain ⟨hall, _hcountry⟩ := List.mem_filter.mp hdrug
  have hid' : (convertLocalDrugToMedication drug d).id ≠ orig.id := by
    simpa using hid
  have hfromCat : drug ∈ POPULAR_OTC_MEDICATIONS ∧
      drug.activeIngredient = orig.activeIngredient := by
    by_cases hpos : (searchAnalogues orig.activeIngredient d 15).length > 0
    · rw [if_pos hpos] at hall
      rcases List.mem_append.mp hall with hL | hR
      · simp only [searchAnalogues] at hL
        have hf := List.take_subset _ _ hL
        obtain ⟨hcat, hp⟩ := List.mem_filter.mp hf
        obtain ⟨hp1, _⟩ := Bool.and_eq_true .. |>.mp hp
        exact ⟨hcat, by simpa using hp1⟩
      · simp only [getRelatedMedications] at hR
        have hf := List.take_subset _ _ hR
        obtain ⟨hcat, hcont⟩ := List.mem_filter.mp hf
        have hmemId : drug.id ∈ (searchAnalogues orig.activeIngredient d 15).map
            LocalDrug.id := by simpa using hcont
        obtain ⟨a, haMem, haid⟩ := List.mem_map.mp hmemId
        simp only [searchAnalogues] at haMem
        have haf := List.take_subset _ _ haMem
        obtain ⟨hacat, hap⟩ := List.mem_filter.mp haf
        obtain ⟨hap1, _⟩ := Bool.and_eq_true .. |>.mp hap
        have heq : drug = a :=
          List.inj_on_of_nodup_map catalog_ids_nodup hcat hacat haid.symm
        subst heq
        exact ⟨hcat, by simpa using hap1⟩
    · rw [if_neg hpos] at hall
      simp at hall
  exact ⟨drug, hfromCat.1, rfl, hfromCat.2, hid'⟩

/-- Inversion of a successful local-pipeline search: the result's fields in
terms of the resolved record and its final analogue list. -/
theorem localSearchMedications_some {q s d : String} {r : SearchResult}
    (h : localSearchMedications q s d = some r) :
    ∃ orig, findOriginalMedication q = some orig ∧
      r.analogues = localFinalAnalogues orig d ∧
      r.originalMedication = convertLocalDrugToMedication orig s ∧
      r.confidence =
        (if (localFinalAnalogues orig d).length > 0 then (0.9 : ℚ) else 0.3) ∧
      r.noAnaloguesFound =
        (if (localFinalAnalogues orig d).length = 0 then some true else none) ∧
      r.fallbackMessage =
        (if (localFinalAnalogues orig d).length = 0 then
          some (localNoAnaloguesMsg d orig)
        else none) := by
  simp only [localSearchMedications] at h
  split at h
  · simp at h
  · rename_i orig horig
    obtain rfl := (Option.some.inj h).symm
    exact ⟨orig, horig, rfl, rfl, rfl, rfl, rfl⟩

theorem pairwise_lt_enumFrom {α : Type _} (n : Nat) (l : List α) :
    (List.enumFrom n l).Pairwise (fun p q => p.1 < q.1) := by
  induction l generalizing n with
  | nil => exact List.Pairwise.nil
  | cons x xs ih =>
    refine List.Pairwise.cons ?_ (ih (n + 1))
    intro p hp
    exact Nat.lt_of_lt_of_le (Nat.lt_succ_self n) (List.mem_enumFrom hp).1

/-- The `index === findIndex(...)` filter keeps at most one element per
`(name, country)` key. -/
theorem dedupNameCountry_pairwise (l : List SuggestionItem) :
    (dedupNameCountry l).Pairwise
      (fun a b => ¬(a.name = b.name ∧ a.country = b.country)) := by
  have h1 : (l.enum).Pairwise (fun p q : Nat × SuggestionItem => p.1 < q.1) :=
    pairwise_lt_enumFrom 0 l
  have h2 := h1.filter (fun p => l.findIdx? (fun m => sameNameCountry m p.2) == some p.1)
  simp only [dedupNameCountry]
  rw [List.pairwise_map]
  refine List.Pairwise.imp_of_mem ?_ h2
  intro p q hp hq hlt
  rintro ⟨hn, hc⟩
  have hp' : l.findIdx? (fun m => sameNameCountry m p.2) = some p.1 := by
    simpa using (List.mem_filter.mp hp).2
  have hq' : l.findIdx? (fun m => sameNameCountry m q.2) = some q.1 := by
    simpa using (List.mem_filter.mp hq).2
  have hfun : (fun m => sameNameCountry m p.2) = (fun m => sameNameCountry m q.2) := by
    funext m
    simp [sameNameCountry, hn, hc]
  rw [hfun] at hp'
  have hidx : p.1 = q.1 := Option.some.inj (hp'.symm.trans hq')
  exact absurd (hidx ▸ hlt) (Nat.lt_irrefl _)

theorem dedupNameCountry_sublist (l : List SuggestionItem) :
    (dedupNameCountry l).Sublist l := by
  simp only [dedupNameCountry]
  have h := List.Sublist.map Prod.snd
    (List.filter_sublist
      (l := l.enum) (p := fun p => l.findIdx? (fun m => sameNameCountry m p.2) == some p.1))
  simpa [List.enum_map_snd] using h

theorem searchMedications_eq_some {env : ApiEnv} {q s d : String} {r : SearchResult}
    (h : searchMedications env q s d = some r) :
    ∃ tr, searchMedicationsT env q s d = (tr, some r) := by
  unfold searchMedications at h
  cases hT : searchMedicationsT env q s d with
  | mk tr or =>
    rw [hT] at h
    exact ⟨tr, by rw [show or = some r from h]⟩

theorem localIbu_isSome : (localSearchMedications "Ibuprofen" "US" "EU").isSome = true := by
  decide

theorem localPara_isSome :
    (localSearchMedications "Paracetamol" "US" "US").isSome = true := by decide

theorem fooT_isSome : (searchMedicationsT envFoo "Foo" "US" "EU").2.isSome = true := by
  decide

theorem noCand_isSome :
    (searchMedications envNoCandidates "Ibuprofen" "US" "US").isSome = true := by decide

end Medmatch

/-- C10: `convertOpenFDADrugToMedication` labels every converted drug with
country `'US'` and availability `'otc'`, for every input drug and every
country argument — the destination country passed in is ignored. -/
theorem openfda_conversion_fixed_country_availability
    (drug : Medmatch.OpenFDADrug) (country : String) :
    (Medmatch.convertOpenFDADrugToMedication drug country).country = "US" ∧
    (Medmatch.convertOpenFDADrugToMedication drug country).availability =
      Medmatch.Avail.otc :=
  ⟨rfl, rfl⟩

open Medmatch

/-- C1: the spec's safety invariant — no `prescription` or `unavailable`
record ever appears among a result's analogues — is broken by the code:
`convertToEMADrugs` passes the remote availability field through, so an EMA
payload marked `prescription` reaches the analogue list of an EU-destination
search unfiltered (evaluated here at the failing input). -/
theorem ema_prescription_reaches_analogues :
    allAnaloguesOtc (searchMedications envEmaPrescription "Advil" "US" "EU") = false ∧
      (searchMedications envEmaPrescription "Advil" "US" "EU").isSome = true := by
  decide

/-- C2 (counterexample): the claim that every analogue shares the original's
`activeIngredient` or is referenced by its `analogueRefs` fails on the
EMA/Canada pipeline — the strategy responses are never re-validated for
ingredient equality (and the pipeline's `Medication` has no `analogueRefs`
at all), so a naproxen product returned by the ingredient strategy of an
ibuprofen search lands in `analogues`. -/
theorem analogue_ingredient_mismatch :
    analoguesShareIngredient (searchMedications envNaproxen "Advil" "US" "US") = false ∧
      (searchMedications envNaproxen "Advil" "US" "US").isSome = true := by
  decide

/-- C2 (amended): in the local-database pipeline every element of a result's
analogue list has the original medication's `activeIngredient` (the related
medications step refetches the very records already matched by ingredient,
so no other ingredient can enter). -/
theorem local_analogues_share_ingredient (q s d : String) (r : SearchResult)
    (h : localSearchMedications q s d = some r) :
    (r.analogues.all fun m =>
      m.activeIngredient == r.originalMedication.activeIngredient) = true := by
  obtain ⟨orig, -, han, horig, -, -, -⟩ := localSearchMedications_some h
  rw [List.all_eq_true]
  intro m hm
  rw [han] at hm
  obtain ⟨drug, -, rfl, hing, -⟩ := mem_localFinalAnalogues hm
  rw [horig]
  simp [convertLocalDrugToMedication, hing]

theorem local_analogues_share_ingredient_witness :
    (((localSearchMedications "Ibuprofen" "US" "EU").get localIbu_isSome).analogues.all
      fun m => m.activeIngredient ==
        ((localSearchMedications "Ibuprofen" "US" "EU").get
          localIbu_isSome).originalMedication.activeIngredient) = true :=
  local_analogues_share_ingredient "Ibuprofen" "US" "EU" _
    (Option.some_get localIbu_isSome).symm

/-- C3 (counterexample): the claim that a result never lists the original
medication's id among its analogues fails on the EMA/Canada pipeline: the
same-product filter compares `(brandName, genericName)` case-sensitively
while ids are built lower-cased, so the capitalised duplicate `ADVIL /
IBUPROFEN` survives the filter and converts to exactly the original's id. -/
theorem analogue_id_collision :
    noSelfAnalogue (searchMedications envCaseCollision "Advil" "US" "US") = false ∧
      (searchMedications envCaseCollision "Advil" "US" "US").isSome = true := by
  decide

/-- C3 (amended): in the local-database pipeline the final filter drops any
candidate whose id equals the original's, so `originalMedication.id` never
appears among the analogue ids. -/
theorem local_no_self_analogue (q s d : String) (r : SearchResult)
    (h : localSearchMedications q s d = some r) :
    (r.analogues.all fun m => m.id != r.originalMedication.id) = true := by
  obtain ⟨orig, -, han, horig, -, -, -⟩ := localSearchMedications_some h
  rw [List.all_eq_true]
  intro m hm
  rw [han] at hm
  obtain ⟨drug, -, rfl, -, hid⟩ := mem_localFinalAnalogues hm
  rw [horig]
  simpa [convertLocalDrugToMedication] using hid

theorem local_no_self_analogue_witness :
    (((localSearchMedications "Ibuprofen" "US" "EU").get localIbu_isSome).analogues.all
      fun m => m.id !=
        ((localSearchMedications "Ibuprofen" "US" "EU").get
          localIbu_isSome).originalMedication.id) = true :=
  local_no_self_analogue "Ibuprofen" "US" "EU" _
    (Option.some_get localIbu_isSome).symm

/-- C4 (counterexample): an error thrown by the very first matching strategy
(`searchByActiveIngredient` has no catch) escapes to the orchestrator's
top-level handler and turns the whole search into `null`, even though the
query resolved successfully — the failure is not absorbed as zero results. -/
theorem ingredient_strategy_error_nulls_search :
    searchMedications envStrategyError "Advil" "US" "EU" = none ∧
      (searchDrugs envStrategyError "Advil" 10).length ≠ 0 ∧
      searchByActiveIngredient envStrategyError "IBUPROFEN" 15 = Except.error () := by
  refine ⟨by decide, by decide, rfl⟩

/-- C4 (amended): failures of the individual name-search variations inside
`searchDrugs` are absorbed exactly like empty results, and a search whose
`searchByActiveIngredient` call does not throw always produces a
well-formed result once the query resolves; only the uncaught
ingredient-strategy error can null the search. -/
theorem variation_failures_absorbed :
    (∀ (env : ApiEnv) (limit : Nat) (v : String) (vs : List String),
        env.label v limit = Except.error () →
        tryVariations env limit (v :: vs) = tryVariations env limit vs) ∧
    (∀ (env : ApiEnv) (q s d : String),
        (searchDrugs env q 10).length ≠ 0 →
        (∀ ing, searchByActiveIngredient env ing 15 ≠ Except.error ()) →
        (searchMedications env q s d).isSome = true) := by
  constructor
  · intro env limit v vs h
    simp [tryVariations, h]
  · intro env q s d hlen hok
    unfold searchMedications
    cases hT : searchMedicationsT env q s d with
    | mk tr or =>
      cases or with
      | some r => rfl
      | none =>
        rcases searchMedicationsT_none hT with h0 | ⟨b, -, herr⟩
        · exact absurd h0 hlen
        · exact absurd herr (hok _)

theorem variation_failures_absorbed_witness :
    tryVariations envStrategyError 15 ("openfda.generic_name:NAPROXEN" :: ["openfda.brand_name:Aleve"]) =
        tryVariations envStrategyError 15 ["openfda.brand_name:Aleve"] ∧
      (searchMedications envAllOk "Advil" "US" "US").isSome = true := by
  constructor
  · exact variation_failures_absorbed.1 envStrategyError 15 "openfda.generic_name:NAPROXEN"
      ["openfda.brand_name:Aleve"] rfl
  · refine variation_failures_absorbed.2 envAllOk "Advil" "US" "US" (by decide) ?_
    intro ing h
    simp only [searchByActiveIngredient, envAllOk] at h
    split at h <;> exact Except.noConfusion h

theorem length_beq_zero_false {α : Type _} {l : List α} (h : l ≠ []) :
    (l.length == 0) = false := by
  rw [Bool.eq_false_iff]
  intro hx
  exact h (List.length_eq_zero.mp (by simpa using hx))

/-- C5: when the query resolves but the resolved medication's trimmed
`activeIngredient` is empty, the orchestrator short-circuits to a result
with no analogues, confidence 0.2 and the fixed unable-to-identify message,
and no matching strategy is attempted (the strategy trace is empty). -/
theorem empty_ingredient_short_circuit (env : ApiEnv) (q s d : String) (tr : List Strat)
    (r : SearchResult) (h : searchMedicationsT env q s d = (tr, some r))
    (hempty : jsTrim r.originalMedication.activeIngredient = "") :
    r.analogues = [] ∧ r.confidence = 0.2 ∧
      r.fallbackMessage = some ambiguousIngredientMsg ∧
      r.noAnaloguesFound = some true ∧ tr = [] := by
  obtain ⟨b, -, -, hcase⟩ := searchMedicationsT_some h
  rcases hcase with ⟨-, rfl, rfl⟩ | ⟨htrim, raw, -, rfl⟩
  · exact ⟨rfl, rfl, rfl, rfl, rfl⟩
  · rw [finalizeResult_originalMedication] at hempty
    exact absurd hempty htrim

theorem empty_ingredient_short_circuit_witness :
    ((searchMedicationsT envFoo "Foo" "US" "EU").2.get fooT_isSome).analogues = [] ∧
      ((searchMedicationsT envFoo "Foo" "US" "EU").2.get fooT_isSome).confidence = 0.2 ∧
      ((searchMedicationsT envFoo "Foo" "US" "EU").2.get fooT_isSome).fallbackMessage =
        some ambiguousIngredientMsg ∧
      ((searchMedicationsT envFoo "Foo" "US" "EU").2.get fooT_isSome).noAnaloguesFound =
        some true ∧
      (searchMedicationsT envFoo "Foo" "US" "EU").1 = [] :=
  empty_ingredient_short_circuit envFoo "Foo" "US" "EU" _ _
    (by rw [Option.some_get]) (by decide)

/-- C6: when the resolver succeeds with a usable ingredient but ranking
leaves zero candidates, both pipelines return empty analogues with
confidence 0.3, `noAnaloguesFound = true`, and a non-empty fallback
message. -/
theorem no_candidates_fallback :
    (∀ (env : ApiEnv) (q s d : String) (r : SearchResult),
        searchMedications env q s d = some r →
        jsTrim r.originalMedication.activeIngredient ≠ "" →
        r.analogues = [] →
        r.confidence = 0.3 ∧ r.noAnaloguesFound = some true ∧
          r.fallbackMessage ≠ none ∧ r.fallbackMessage ≠ some "") ∧
    (∀ (q s d : String) (r : SearchResult),
        localSearchMedications q s d = some r →
        r.analogues = [] →
        r.confidence = 0.3 ∧ r.noAnaloguesFound = some true ∧
          r.fallbackMessage ≠ none ∧ r.fallbackMessage ≠ some "") := by
  constructor
  · intro env q s d r h hing hempty
    obtain ⟨tr, hT⟩ := searchMedications_eq_some h
    obtain ⟨b, -, -, hcase⟩ := searchMedicationsT_some hT
    rcases hcase with ⟨htrim, rfl, -⟩ | ⟨-, raw, -, rfl⟩
    · exact absurd htrim hing
    · have hasm : assembleAnalogues env (convertOpenFDADrugToMedication b s) d raw = [] := by
        rwa [finalizeResult_analogues] at hempty
      obtain ⟨hc, hn, hf⟩ := finalizeResult_empty _ _ _ hasm
      refine ⟨hc, hn, ?_, ?_⟩
      · rw [hf]; simp
      · rw [hf]
        simpa using noAnaloguesMsg_ne_empty (convertOpenFDADrugToMedication b s) d
  · intro q s d r h hempty
    obtain ⟨orig, -, han, -, hc, hn, hf⟩ := localSearchMedications_some h
    have hlen : (localFinalAnalogues orig d).length = 0 := by
      rw [han] at hempty
      simp [hempty]
    refine ⟨?_, ?_, ?_, ?_⟩
    · rw [hc]; simp [hlen]
    · rw [hn]; simp [hlen]
    · rw [hf]; simp [hlen]
    · rw [hf]
      simpa [hlen] using localNoAnaloguesMsg_ne_empty d orig

theorem no_candidates_fallback_witness :
    (((searchMedications envNoCandidates "Ibuprofen" "US" "US").get
          noCand_isSome).confidence = 0.3 ∧
      ((searchMedications envNoCandidates "Ibuprofen" "US" "US").get
          noCand_isSome).noAnaloguesFound = some true ∧
      ((searchMedications envNoCandidates "Ibuprofen" "US" "US").get
          noCand_isSome).fallbackMessage ≠ none ∧
      ((searchMedications envNoCandidates "Ibuprofen" "US" "US").get
          noCand_isSome).fallbackMessage ≠ some "") ∧
    (((localSearchMedications "Paracetamol" "US" "US").get
          localPara_isSome).confidence = 0.3 ∧
      ((localSearchMedications "Paracetamol" "US" "US").get
          localPara_isSome).noAnaloguesFound = some true ∧
      ((localSearchMedications "Paracetamol" "US" "US").get
          localPara_isSome).fallbackMessage ≠ none ∧
      ((localSearchMedications "Paracetamol" "US" "US").get
          localPara_isSome).fallbackMessage ≠ some "") :=
  ⟨no_candidates_fallback.1 envNoCandidates "Ibuprofen" "US" "US" _
      (Option.some_get noCand_isSome).symm (by decide) (by decide)
  , no_candidates_fallback.2 "Paracetamol" "US" "US" _
      (Option.some_get localPara_isSome).symm (by decide)⟩

/-- C7 (counterexample): the analogue list is not deduplicated by
`(name, country)` — on the shipped catalog, the query `Ibuprofen` with
destination `EU` yields the EU ibuprofen record twice (once from the
ingredient search and once again from the related-medications refetch of
the very same ids). -/
theorem duplicate_analogues_local :
    ¬ (((analoguesOf (localSearchMedications "Ibuprofen" "US" "EU")).map
        (fun m => (m.name, m.country))).Nodup) ∧
      (localSearchMedications "Ibuprofen" "US" "EU").isSome = true := by
  exact ⟨by decide, by decide⟩

/-- C7 (amended): the first-occurrence-wins deduplication by
`(name, country)` exists only in the autocomplete-suggestion path: no two
suggestions share a `(name, country)` pair, and the suggestion list is an
order-preserving sublist of the collected matches; the analogue list of a
search result is never deduplicated. -/
theorem suggestions_dedup_by_name_country (query : String) (limit : Nat) :
    (searchAutocompleteSuggestions query limit).Pairwise
      (fun a b => ¬(a.name = b.name ∧ a.country = b.country)) ∧
    (searchAutocompleteSuggestions query limit).Sublist
      (POPULAR_OTC_MEDICATIONS.flatMap (suggestionOfDrug (jsLower query))) := by
  simp only [searchAutocompleteSuggestions]
  split
  · exact ⟨List.Pairwise.nil, List.nil_sublist _⟩
  · constructor
    · exact List.Pairwise.sublist (List.take_sublist _ _) (dedupNameCountry_pairwise _)
    · exact (List.take_sublist _ _).trans (dedupNameCountry_sublist _)

/-- C8: the analogue strategies run in the fixed order ingredient →
generic name → substance name → broadened search; a later strategy is
consulted only when every earlier one came back empty (the generic-name
stage applying only when the record has a generic name), and the first
strategy with at least one result supplies the candidate set. -/
theorem strategy_fallback_order (env : ApiEnv) (orig : Medication) :
    (∀ l1, searchByActiveIngredient env orig.activeIngredient 15 = Except.ok l1 →
        l1 ≠ [] →
        analoguePhase env orig = ([Strat.ingredient], Except.ok l1)) ∧
    (∀ l2, searchByActiveIngredient env orig.activeIngredient 15 = Except.ok [] →
        optTruthy orig.genericName = true →
        searchDrugs env (orig.genericName.getD "") 15 = l2 → l2 ≠ [] →
        analoguePhase env orig =
          ([Strat.ingredient, Strat.genericName], Except.ok l2)) ∧
    (∀ l3, searchByActiveIngredient env orig.activeIngredient 15 = Except.ok [] →
        optTruthy orig.genericName = true →
        searchDrugs env (orig.genericName.getD "") 15 = [] →
        searchDrugs env orig.activeIngredient 15 = l3 → l3 ≠ [] →
        analoguePhase env orig =
          ([Strat.ingredient, Strat.genericName, Strat.substanceName], Except.ok l3)) ∧
    (∀ l4, searchByActiveIngredient env orig.activeIngredient 15 = Except.ok [] →
        optTruthy orig.genericName = true →
        searchDrugs env (orig.genericName.getD "") 15 = [] →
        searchDrugs env orig.activeIngredient 15 = [] →
        searchDrugs env (jsOrD orig.genericName orig.activeIngredient) 20 = l4 →
        analoguePhase env orig =
          ([Strat.ingredient, Strat.genericName, Strat.substanceName, Strat.broad],
            Except.ok l4)) ∧
    (∀ l3, searchByActiveIngredient env orig.activeIngredient 15 = Except.ok [] →
        optTruthy orig.genericName = false →
        searchDrugs env orig.activeIngredient 15 = l3 → l3 ≠ [] →
        analoguePhase env orig =
          ([Strat.ingredient, Strat.substanceName], Except.ok l3)) := by
  refine ⟨?_, ?_, ?_, ?_, ?_⟩
  · intro l1 hS hne
    unfold analoguePhase
    rw [hS]
    simp [length_beq_zero_false hne]
  · intro l2 hS hg hD hne
    unfold analoguePhase
    rw [hS]
    simp [hg, hD, length_beq_zero_false hne]
  · intro l3 hS hg hDg hD3 hne
    unfold analoguePhase
    rw [hS]
    simp [hg, hDg, hD3, length_beq_zero_false hne]
  · intro l4 hS hg hDg hD3 hD4
    unfold analoguePhase
    rw [hS]
    simp [hg, hDg, hD3, hD4]
  · intro l3 hS hg hD3 hne
    unfold analoguePhase
    rw [hS]
    simp [hg, hD3, length_beq_zero_false hne]

theorem strategy_fallback_order_witness :
    analoguePhase envGenericWins origIbu =
      ([Strat.ingredient, Strat.genericName], Except.ok [motrinDrug]) :=
  (strategy_fallback_order envGenericWins origIbu).2.1 [motrinDrug] rfl rfl
    (by decide) (by decide)

/-- C9 (counterexample): the claim's 0.9-for-curated clause fails.  A
candidate that came from the curated Canadian region augmentation (the
first conjunct pins the whole analogue list to the Health-Canada service's
output) is annotated by the ranking table with per-candidate confidence
0.8, not 0.9: the table's region-specific test requires `country === 'CA'`
while the Canadian service labels its records `country: 'Canada'`. -/
theorem canadian_curated_confidence_not_raised :
    analoguesOf (searchMedications envCanadaCurated "Advil" "US" "Canada") =
      searchCanadianMedications envCanadaCurated "IBUPROFEN" 10 ∧
      ((sortedAndFilteredAnalogues compare SortField.name SortDirection.asc "all"
          (analoguesOf (searchMedications envCanadaCurated "Advil" "US" "Canada"))).map
        fun x => x.confidence) = [0.8] ∧
      ¬ ((0.8 : ℚ) = 0.9) := by
  refine ⟨rfl, rfl, by norm_num⟩

/-- C9 (amended): the ranking layer (`AnaloguesTable`) gives every rendered
candidate its own confidence — base 0.7, raised to 0.8 when both
`genericName` and `activeIngredient` are present, 0.9 when the id/country
pattern marks the record region-specific — and the displayed sequence is
sorted descending by that per-candidate confidence: every adjacent pair
satisfies earlier ≥ later, for every collation, column sort, direction and
availability filter, and every displayed row is one of the annotated input
analogues.  (The region pattern demands country `'CA'`, so the Canadian
region service's `'Canada'`-labelled curated candidates score 0.8 — the
correction the counterexample forces.) -/
theorem analogues_ranked_by_candidate_confidence :
    (∀ (loc : String → String → Ordering) (sf : SortField) (dir : SortDirection)
        (filt : String) (analogues : List Medication),
        (sortedAndFilteredAnalogues loc sf dir filt analogues).Chain'
          (fun a b => b.confidence ≤ a.confidence) ∧
        ((sortedAndFilteredAnalogues loc sf dir filt analogues).all
          fun x => (analogues.map annotateAnalogue).contains x) = true) ∧
    (∀ m : Medication,
        (isRegionSpecific m = true → (annotateAnalogue m).confidence = 0.9) ∧
        (isRegionSpecific m = false → optTruthy m.genericName = true →
          jsTruthy m.activeIngredient = true → (annotateAnalogue m).confidence = 0.8) ∧
        (isRegionSpecific m = false →
          (optTruthy m.genericName = false ∨ jsTruthy m.activeIngredient = false) →
          (annotateAnalogue m).confidence = 0.7)) := by
  constructor
  · intro loc sf dir filt analogues
    constructor
    · simp only [sortedAndFilteredAnalogues]
      exact List.Pairwise.chain' (List.sorted_insertionSort confDescRel _)
    · rw [List.all_eq_true]
      intro x hx
      simp only [sortedAndFilteredAnalogues] at hx
      have hx1 := (List.mem_insertionSort confDescRel).mp hx
      have hx2 := (List.mem_insertionSort (fieldRel loc sf dir)).mp hx1
      have hx3 : x ∈ analogues.map annotateAnalogue := by
        split at hx2
        · exact List.mem_of_mem_filter hx2
        · exact hx2
      simpa using hx3
  · intro m
    refine ⟨?_, ?_, ?_⟩
    · intro h
      simp [annotateAnalogue, h]
    · intro h1 h2 h3
      simp [annotateAnalogue, h1, h2, h3]
    · intro h1 h2
      have hcond : (optTruthy m.genericName && jsTruthy m.activeIngredient) = false := by
        rcases h2 with h | h <;> simp [h]
      simp [annotateAnalogue, h1, hcond]

theorem analogues_ranked_by_candidate_confidence_witness :
    (sortedAndFilteredAnalogues compare SortField.name SortDirection.asc "all"
        (analoguesOf (searchMedications envEmaOtc "Advil" "US" "EU"))).Chain'
      (fun a b => b.confidence ≤ a.confidence) ∧
    (annotateAnalogue (convertLocalDrugToMedication
        (POPULAR_OTC_MEDICATIONS.get ⟨1, by decide⟩) "EU")).confidence = 0.9 ∧
    (annotateAnalogue origIbu).confidence = 0.8 ∧
    (annotateAnalogue (convertOpenFDADrugToMedication fooDrug "US")).confidence = 0.7 :=
  ⟨(analogues_ranked_by_candidate_confidence.1 compare SortField.name SortDirection.asc
      "all" (analoguesOf (searchMedications envEmaOtc "Advil" "US" "EU"))).1
  , (analogues_ranked_by_candidate_confidence.2 _).1 (by decide)
  , (analogues_ranked_by_candidate_confidence.2 origIbu).2.1 (by decide) (by decide)
      (by decide)
  , (analogues_ranked_by_candidate_confidence.2 _).2.2 (by decide) (Or.inl (by decide))⟩
